import Mathlib

/-!
Shallow embedding of the navigation/guidance engine of the
`router_optimizer` repository (`src/utils/navigation-helpers.ts` and the
`NavigationProvider` session component).

Numbers are modelled by `ℚ` (the finite doubles of the code), timestamps by `ℤ`
(milliseconds).  The transcendental floating-point primitives used by the
code — `Math.sin`/`Math.cos`/`Math.atan2` inside the haversine distance and
the raw bearing formula, and the string parsers `Number.parseFloat` /
`Number.parseInt` — are treated as uninterpreted primitives gathered in
`JsPrims`; every theorem below is independent of their values (or
constrains them only by the documented range of `Math.atan2`).  All control
flow, thresholds, normalizations, string formatting and state updates are
translated from the source.
-/

namespace RouterOpt

set_option maxHeartbeats 1600000

/-- A coordinate pair `[longitude, latitude]` in degrees. -/
abbrev Point := ℚ × ℚ

/-- Truncation toward zero, as the implicit JavaScript division in `%`
(`-⌊-x⌋` is the ceiling, used on the negative side). -/
def qtrunc (x : ℚ) : ℤ := if 0 ≤ x then ⌊x⌋ else -⌊-x⌋

/-- The JavaScript `%` remainder on numbers: `a - b * trunc(a / b)`
(sign follows the dividend). -/
def jsMod (a b : ℚ) : ℚ := a - b * (qtrunc (a / b) : ℚ)

/-- The JavaScript `Math.round`: nearest integer, ties toward `+∞`,
i.e. `⌊x + 1/2⌋`. -/
def jsRound (x : ℚ) : ℤ := ⌊x + 1 / 2⌋

/-- Embedding of `x.toFixed(1)` for the non-negative magnitudes this program formats. -/
def toFixed1 (x : ℚ) : String :=
  let n : ℤ := jsRound (x * 10)
  toString (n / 10) ++ "." ++ toString (n % 10)

/-- The eight compass labels (`navigation-helpers.ts` line 5). -/
def directions : List String :=
  ["north", "northeast", "east", "southeast", "south", "southwest", "west", "northwest"]

/-- Embedding of `getDirectionFromBearing` (lines 4-8): `directions[round(bearing/45) % 8]`.
A JavaScript out-of-range index yields `undefined`, modelled by `none`. -/
def getDirectionFromBearing (bearing : ℚ) : Option String :=
  let index : ℤ := Int.tmod (jsRound (bearing / 45)) 8
  if index < 0 then none else directions.get? index.toNat

/-- JavaScript string interpolation of a possibly-`undefined` value. -/
def jsShow (o : Option String) : String := Option.getD o "undefined"

/-- The uninterpreted floating-point / parsing primitives of the source.
`dist` stands for the haversine `calculateDistance` (lines 24-48, pure
trigonometry on doubles); `bearingRaw` for `Math.atan2(y, x) * 180 / π` of
the bearing formula (lines 17-19); `parseFloatMiles` / `parseIntMins` for
`Number.parseFloat(route.distance.replace(" miles", ""))` and
`Number.parseInt(route.duration.replace(" mins", ""))`. -/
structure JsPrims where
  dist : Point → Point → ℚ
  bearingRaw : Point → Point → ℚ
  parseFloatMiles : String → ℚ
  parseIntMins : String → ℤ

/-- Embedding of `calculateBearing` (lines 11-22): the `atan2` degrees are normalized by
`(bearing + 360) % 360` with the JavaScript remainder. -/
def calculateBearing (P : JsPrims) (point1 point2 : Point) : ℚ :=
  jsMod (P.bearingRaw point1 point2 + 360) 360

/-- The normalization step alone, on a raw `atan2`-degrees value. -/
def normalizeBearing (raw : ℚ) : ℚ := jsMod (raw + 360) 360

/-- Embedding of `generateTurnInstruction` (lines 51-82). -/
def generateTurnInstruction (prevBearing : Option ℚ) (currentBearing : ℚ)
    (distance : ℚ) : String :=
  match prevBearing with
  | none =>
      let direction := jsShow (getDirectionFromBearing currentBearing)
      "Head " ++ direction ++ " for " ++ toFixed1 distance ++ " miles"
  | some prev =>
      let angle0 := currentBearing - prev
      let angle1 := if angle0 < -180 then angle0 + 360 else angle0
      let angle := if angle1 > 180 then angle1 - 360 else angle1
      if |angle| < 20 then
        "Continue straight for " ++ toFixed1 distance ++ " miles"
      else
        let turnDirection :=
          if 20 ≤ angle ∧ angle < 60 then "slight right"
          else if 60 ≤ angle ∧ angle < 120 then "right"
          else if 120 ≤ angle then "sharp right"
          else if angle ≤ -20 ∧ angle > -60 then "slight left"
          else if angle ≤ -60 ∧ angle > -120 then "left"
          else "sharp left"
        "Turn " ++ turnDirection ++ " and continue for " ++ toFixed1 distance ++ " miles"

/-- The maneuver classification chain of `generateDetailedNavigationSteps`
(lines 109-122), verbatim branch order: the `> 30` / `< -30` tests come
first, so the `> 100` / `< -100` / `|·| > 170` branches are evaluated only
when `|normalizedAngle| ≤ 30`. -/
def classifyManeuver (prevBearing : Option ℚ) (bearing : ℚ) : String :=
  match prevBearing with
  | none => "straight"
  | some prev =>
      let angle := bearing - prev
      let normalizedAngle := jsMod (angle + 180) 360 - 180
      if normalizedAngle > 30 then "right"
      else if normalizedAngle < -30 then "left"
      else if normalizedAngle > 10 then "slight-right"
      else if normalizedAngle < -10 then "slight-left"
      else if normalizedAngle > 100 then "sharp-right"
      else if normalizedAngle < -100 then "sharp-left"
      else if |normalizedAngle| > 170 then "uturn"
      else "straight"

/-- One generated navigation step (lines 85-91 and the `NavigationStep`
interface of the provider). -/
structure NavigationStep where
  instruction : String
  distance : String
  coordinates : Point
  bearing : ℚ
  maneuver : String
deriving DecidableEq

/-- The body of `generateDetailedNavigationSteps` (lines 94-148): the loop
over consecutive point pairs threading `prevBearing`, then the synthetic
arrival step anchored at the last point with bearing `prevBearing || 0`. -/
def genStepsAux (P : JsPrims) : Option ℚ → List Point → List NavigationStep
  | _, [] => []
  | prev, [p] =>
      [{ instruction := "Arrive at your destination"
         distance := "0 miles"
         coordinates := p
         bearing := Option.getD prev 0
         maneuver := "arrive" }]
  | prev, p1 :: p2 :: rest =>
      let bearing := calculateBearing P p1 p2
      let distance := P.dist p1 p2
      { instruction := generateTurnInstruction prev bearing distance
        distance := toFixed1 distance ++ " miles"
        coordinates := p1
        bearing := bearing
        maneuver := classifyManeuver prev bearing } :: genStepsAux P (some bearing) (p2 :: rest)

/-- Embedding of `generateDetailedNavigationSteps` (lines 85-149). -/
def generateDetailedNavigationSteps (P : JsPrims) (path : List Point) :
    List NavigationStep :=
  if path.length < 2 then [] else genStepsAux P none path

/-! ## The navigation session (the `NavigationProvider` component)

Each exported operation (`startNavigation`, `stopNavigation`,
`recalculateRoute`, `updateUserPosition`, a timer callback) runs as one
event-loop turn.  Within a turn, reads of React state come from the
snapshot `snap` captured by the closures of the turn, while `useRef` cells
(`watchId`, `lastVoiceAlert`, `lastDistanceAlert`) and the batched state
writes accumulate in `cur`.  `setTimeout` callbacks are modelled by a
pending-timer queue: the source never stores the handles returned by
`setTimeout` (lines 434-437 and 628-632), so nothing can remove a timer
from the queue except its own firing. -/

/-- A named location (the `Location` interface of the provider). -/
structure Location where
  name : String
  coordinates : Point
deriving DecidableEq

/-- The `Route` interface of the provider. -/
structure Route where
  id : ℤ
  name : String
  duration : String
  distance : String
  trafficLevel : String
  incidents : ℤ
  path : List Point
deriving DecidableEq

/-- Distance-alert frequency setting. -/
inductive Freq
  | off
  | low
  | medium
  | high
deriving DecidableEq

/-- The two callbacks the source passes to `setTimeout`: `stopNavigation`
after arrival (line 435) and `recalculateRoute` after off-route (line 630). -/
inductive TimerAction
  | stopNav
  | autoRecalc
deriving DecidableEq

/-- A scheduled, never-cancelled `setTimeout`. -/
structure PendingTimer where
  delayMs : ℕ
  action : TimerAction
deriving DecidableEq

/-- Observable side effects of one turn: `speak`, `toast`, `addNotification`,
`window.dispatchEvent`, `geolocation.clearWatch`. -/
inductive Effect
  | speak (message : String)
  | toastMsg (title description : String)
  | notif (ntype title message : String)
  | domEvent (name : String)
  | clearWatch (id : ℕ)
deriving DecidableEq

/-- The state hooks and refs of the provider (lines 209-225). -/
structure NavState where
  isNavigating : Bool
  activeRoute : Option Route
  origin : Option Location
  destination : Option Location
  currentPosition : Option Point
  currentStep : Option NavigationStep
  nextStep : Option NavigationStep
  remainingDistance : String
  remainingTime : String
  progress : ℚ
  voiceEnabled : Bool
  distanceAlertFrequency : Freq
  watchId : Option ℕ
  lastVoiceAlert : String
  lastDistanceAlert : ℤ
  pendingTimers : List PendingTimer
deriving DecidableEq

/-- The `useState` / `useRef` initial values. -/
def initialNavState : NavState :=
  { isNavigating := false, activeRoute := none, origin := none,
    destination := none, currentPosition := none, currentStep := none,
    nextStep := none, remainingDistance := "", remainingTime := "",
    progress := 0, voiceEnabled := true,
    distanceAlertFrequency := Freq.medium, watchId := none,
    lastVoiceAlert := "", lastDistanceAlert := 0, pendingTimers := [] }

/-- Embedding of `generateNavigationSteps` (lines 739-749): maps the detailed steps to
the step shape of the provider, field for field. -/
def generateNavigationSteps (P : JsPrims) (path : List Point) :
    List NavigationStep :=
  generateDetailedNavigationSteps P path

/-- The loop of `updateNavigationStep` (lines 541-547): index of the path
point closest to `position`; the strict `<` keeps the first minimum, and
the initial `Infinity` always accepts index 0. -/
def closestIndexGo (P : JsPrims) (pos : Point) :
    List Point → ℕ → ℚ → ℕ → ℕ
  | [], _, _, best => best
  | p :: rest, i, minD, best =>
      let d := P.dist pos p
      if d < minD then closestIndexGo P pos rest (i + 1) d i
      else closestIndexGo P pos rest (i + 1) minD best

/-- Index of the closest path point (0 on an empty path, matching the
initial `closestPointIndex = 0` of the source). -/
def closestPointIndex (P : JsPrims) (pos : Point) : List Point → ℕ
  | [] => 0
  | p :: rest => closestIndexGo P pos rest 1 (P.dist pos p) 0

/-- The minimum-distance loop of `checkIfOffRoute` (lines 590-597); `none`
models the initial `Infinity` surviving an empty path. -/
def minDistToPath (P : JsPrims) (pos : Point) (path : List Point) : Option ℚ :=
  path.foldl
    (fun acc p =>
      match acc with
      | none => some (P.dist pos p)
      | some m => if P.dist pos p < m then some (P.dist pos p) else some m)
    none

/-- The off-route test `minDistance > 0.1` (line 600); `Infinity > 0.1`
holds, so an empty path counts as off route. -/
def isOffRoute (P : JsPrims) (pos : Point) (path : List Point) : Bool :=
  match minDistToPath P pos path with
  | none => true
  | some m => if (1 / 10 : ℚ) < m then true else false

def offRouteSpeakMsg : String := "You appear to be off route. Recalculating."

def offRouteToastMsg : String := "You appear to be off route. Recalculating..."

/-- Embedding of `checkIfOffRoute` (lines 585-633).  The spoken alert is deduplicated by
the `lastVoiceAlert` ref against the literal `"off-route"`; the toast and
notification are not deduplicated; a 3000 ms `recalculateRoute` timeout is
scheduled on every off-route update and its handle is discarded. -/
def checkIfOffRoute (P : JsPrims) (snap cur : NavState) (position : Point) :
    NavState × List Effect :=
  match snap.activeRoute with
  | none => (cur, [])
  | some route =>
      if isOffRoute P position route.path then
        let (cur1, voiceEffects) :=
          if snap.voiceEnabled ∧ cur.lastVoiceAlert ≠ "off-route" then
            ({ cur with lastVoiceAlert := "off-route" },
             [Effect.speak offRouteSpeakMsg])
          else (cur, [])
        let cur2 := { cur1 with
          pendingTimers := cur1.pendingTimers ++ [⟨3000, TimerAction.autoRecalc⟩] }
        (cur2, voiceEffects ++
          [Effect.toastMsg ("Off Route") offRouteToastMsg,
           Effect.notif ("warning") ("Off Route") offRouteToastMsg])
      else (cur, [])

def distRemainMsg (d : ℚ) : String :=
  toFixed1 d ++ " miles remaining to your destination."

/-- The `low`-frequency milestone list (line 491). -/
def lowMilestones : List ℚ := [10, 5, 3, 2, 1, 1 / 2, 1 / 5]

/-- The JavaScript rendering of the milestone literals in the template string. -/
def qMilestoneStr (m : ℚ) : String :=
  if m = 10 then "10" else if m = 5 then "5" else if m = 3 then "3"
  else if m = 2 then "2" else if m = 1 then "1" else if m = 1 / 2 then "0.5"
  else "0.2"

/-- The `shouldAnnounce`/`message` selection of `checkDistanceAnnouncement`
(lines 466-499), by frequency. -/
def announceFor : Freq → ℚ → Option String
  | Freq.high, d =>
      if |((jsRound (d * 2) : ℚ)) / 2 - d| < 1 / 20
         ∨ (d ≤ 5 ∧ |((jsRound d : ℚ)) - d| < 1 / 20) then
        some (distRemainMsg d)
      else none
  | Freq.medium, d =>
      if |((jsRound d : ℚ)) - d| < 1 / 20
         ∨ (d ≤ 3 ∧ |((jsRound (d * 2) : ℚ)) / 2 - d| < 1 / 20) then
        some (distRemainMsg d)
      else none
  | Freq.low, d =>
      match lowMilestones.find? (fun m => |d - m| < 1 / 20) with
      | some m =>
          some (qMilestoneStr m ++ " " ++ (if m = 1 then "mile" else "miles")
                ++ " remaining to your destination.")
      | none => none
  | Freq.off, _ => none

/-- Embedding of `checkDistanceAnnouncement` (lines 457-506). -/
def checkDistanceAnnouncement (snap cur : NavState)
    (distanceToDestination : ℚ) (now : ℤ) : NavState × List Effect :=
  if ¬ snap.voiceEnabled ∨ snap.distanceAlertFrequency = Freq.off then (cur, [])
  else
    let timeSinceLastAlert := now - cur.lastDistanceAlert
    if timeSinceLastAlert < 30000 then (cur, [])
    else
      match announceFor snap.distanceAlertFrequency distanceToDestination with
      | some message =>
          ({ cur with lastDistanceAlert := now, lastVoiceAlert := "distance" },
           [Effect.speak message])
      | none => (cur, [])

/-- Embedding of `checkUpcomingTurn` (lines 509-530). -/
def checkUpcomingTurn (P : JsPrims) (snap cur : NavState) (position : Point) :
    NavState × List Effect :=
  match snap.currentStep, snap.nextStep with
  | some _, some ns =>
      if ¬ snap.voiceEnabled ∨ ns.maneuver = "straight" ∨ ns.maneuver = "arrive" then
        (cur, [])
      else
        let distanceToTurn := P.dist position ns.coordinates
        if distanceToTurn < 1 / 5 ∧ cur.lastVoiceAlert ≠ "upcoming_" ++ ns.maneuver then
          ({ cur with lastVoiceAlert := "upcoming_" ++ ns.maneuver },
           [Effect.speak ("In 0.2 miles, " ++ ns.instruction)])
        else if distanceToTurn < 1 / 2 ∧ cur.lastVoiceAlert ≠ "prepare_" ++ ns.maneuver then
          ({ cur with lastVoiceAlert := "prepare_" ++ ns.maneuver },
           [Effect.speak ("In half a mile, " ++ ns.instruction)])
        else (cur, [])
  | _, _ => (cur, [])

/-- Embedding of `updateNavigationStep` (lines 533-582).  The comparison of the new
instruction is against the snapshot `currentStep` of the turn (the closure
value), not the just-written one. -/
def updateNavigationStep (P : JsPrims) (snap cur : NavState) (position : Point) :
    NavState × List Effect :=
  match snap.activeRoute, snap.currentStep with
  | some route, some curStep =>
      let routePath := route.path
      let idx := closestPointIndex P position routePath
      if 0 < idx ∧ routePath.get? (idx - 1) = some curStep.coordinates then
        match generateNavigationSteps P (routePath.drop idx) with
        | [] => (cur, [])
        | newCurrentStep :: tailSteps =>
            let cur1 := { cur with currentStep := some newCurrentStep,
                                   nextStep := tailSteps.head? }
            if snap.voiceEnabled ∧ newCurrentStep.instruction ≠ curStep.instruction then
              if newCurrentStep.maneuver ≠ "" ∧ newCurrentStep.maneuver ≠ "straight"
                 ∧ newCurrentStep.maneuver ≠ "arrive" then
                ({ cur1 with lastVoiceAlert := newCurrentStep.instruction },
                 [Effect.speak ("In " ++ newCurrentStep.distance ++ ", "
                                ++ newCurrentStep.instruction)])
              else
                ({ cur1 with lastVoiceAlert := newCurrentStep.instruction },
                 [Effect.speak (newCurrentStep.instruction)])
            else (cur1, [])
      else (cur, [])
  | _, _ => (cur, [])

def arrivedMsg : String := "You have arrived at your destination."

/-- Embedding of `updateNavigationProgress` (lines 386-454): recompute remaining
distance/time and the clamped progress, then the step/alert/arrival/
off-route checks in source order; the arrival branch schedules a 5000 ms
`stopNavigation` timeout whose handle is discarded. -/
def updateNavigationProgress (P : JsPrims) (snap cur : NavState)
    (position : Point) (now : ℤ) : NavState × List Effect :=
  match snap.activeRoute, snap.destination with
  | some route, some destLoc =>
      let totalDistance := P.parseFloatMiles route.distance
      let distanceToDestination := P.dist position destLoc.coordinates
      let newRemainingDistance := toFixed1 distanceToDestination ++ " miles"
      let totalTime := P.parseIntMins route.duration
      let newRemainingTime :=
        toString (max 1 (jsRound ((totalTime : ℚ) * (distanceToDestination / totalDistance))))
          ++ " mins"
      let newProgress :=
        min 100 (max 0 (100 - distanceToDestination / totalDistance * 100))
      let cur1 := { cur with remainingDistance := newRemainingDistance,
                             remainingTime := newRemainingTime,
                             progress := newProgress }
      let su := updateNavigationStep P snap cur1 position
      let sd := checkDistanceAnnouncement snap su.1 distanceToDestination now
      let st := checkUpcomingTurn P snap sd.1 position
      let sa :=
        if distanceToDestination < 1 / 20 then
          let sv :=
            if snap.voiceEnabled ∧ st.1.lastVoiceAlert ≠ "arrived" then
              ({ st.1 with lastVoiceAlert := "arrived" }, [Effect.speak arrivedMsg])
            else (st.1, ([] : List Effect))
          ({ sv.1 with pendingTimers := sv.1.pendingTimers ++ [⟨5000, TimerAction.stopNav⟩] },
           sv.2 ++ [Effect.toastMsg ("Arrived!") ("You have reached your destination."),
                    Effect.notif ("success") ("Arrived!") ("You have reached your destination.")])
        else (st.1, ([] : List Effect))
      let so := checkIfOffRoute P snap sa.1 position
      (so.1, su.2 ++ sd.2 ++ st.2 ++ sa.2 ++ so.2 ++ [Effect.domEvent ("navigationUpdated")])
  | _, _ => (cur, [])

/-- Embedding of `updateUserPosition` (lines 818-832): always records the position; runs
the progress update only while navigating with an active route. -/
def updateUserPosition (P : JsPrims) (s : NavState) (position : Point)
    (now : ℤ) : NavState × List Effect :=
  let cur := { s with currentPosition := some position }
  if s.isNavigating ∧ s.activeRoute ≠ none then
    let r := updateNavigationProgress P s cur position now
    (r.1, r.2 ++ [Effect.domEvent ("userPositionUpdated")])
  else (cur, [Effect.domEvent ("userPositionUpdated")])

/-- Embedding of `startNavigation` (lines 256-300), including `startPositionTracking`
(lines 335-383) which clears any existing geolocation watch and records a
fresh subscription handle (modelled as 0). -/
def startNavigation (P : JsPrims) (s : NavState) (route : Route)
    (originLoc destLoc : Location) : NavState × List Effect :=
  let s1 := { s with activeRoute := some route, origin := some originLoc,
                     destination := some destLoc, isNavigating := true,
                     remainingDistance := route.distance,
                     remainingTime := route.duration, progress := 0 }
  let s2 :=
    match generateNavigationSteps P route.path with
    | [] => s1
    | st :: tailSteps => { s1 with currentStep := some st, nextStep := tailSteps.head? }
  let sw :=
    match s2.watchId with
    | some id => ({ s2 with watchId := some 0 }, [Effect.clearWatch id])
    | none => ({ s2 with watchId := some 0 }, ([] : List Effect))
  let voiceEs :=
    if s.voiceEnabled then
      [Effect.speak ("Starting navigation. " ++ route.distance
        ++ " to destination. Estimated arrival time: " ++ route.duration ++ ".")]
    else []
  (sw.1, sw.2 ++ voiceEs ++
    [Effect.toastMsg ("Navigation Started")
       ("Following " ++ route.name ++ ". " ++ route.distance ++ " to destination."),
     Effect.notif ("info") ("Navigation Started")
       ("Following " ++ route.name ++ ". " ++ route.distance ++ " to destination."),
     Effect.domEvent ("navigationStarted")])

/-- Embedding of `stopNavigation` (lines 303-332): clears the geolocation watch and the
`isNavigating` / `activeRoute` / `currentStep` / `nextStep` fields — and
nothing else; no pending timeout is cancelled. -/
def stopNavigation (s : NavState) : NavState × List Effect :=
  let sw :=
    match s.watchId with
    | some id => ({ s with watchId := none }, [Effect.clearWatch id])
    | none => (s, ([] : List Effect))
  let s2 := { sw.1 with isNavigating := false, activeRoute := none,
                        currentStep := none, nextStep := none }
  let voiceEs := if s.voiceEnabled then [Effect.speak ("Navigation stopped.")] else []
  (s2, sw.2 ++ voiceEs ++
    [Effect.toastMsg ("Navigation Stopped") ("You can start a new route anytime."),
     Effect.notif ("info") ("Navigation Stopped") ("You can start a new route anytime."),
     Effect.domEvent ("navigationStopped")])

/-- Embedding of `simulateNewRoute` (lines 799-816); `Math.floor(Math.random() * 1000)`
is the caller-supplied `newId`. -/
def simulateNewRoute (P : JsPrims) (newId : ℤ) (origin destination : Location) :
    Route :=
  let midLng := origin.coordinates.1 + (destination.coordinates.1 - origin.coordinates.1) * (2 / 5)
  let midLat := origin.coordinates.2 + (destination.coordinates.2 - origin.coordinates.2) * (2 / 5)
  let distance := P.dist origin.coordinates destination.coordinates
  { id := newId, name := "Recalculated Route",
    duration := toString (jsRound (distance * 2)) ++ " mins",
    distance := toFixed1 distance ++ " miles",
    trafficLevel := "moderate", incidents := 0,
    path := [origin.coordinates, (midLng, midLat), destination.coordinates] }

/-- Settlement of the promise returned by the `async` `recalculateRoute`. -/
inductive RecalcResult
  | resolved
  | rejected
deriving DecidableEq

/-- Embedding of `recalculateRoute` (lines 636-712).  The guard
`if (!currentPosition || !destination) return` exits the `async` function
early, so the returned promise RESOLVES with `undefined`; the `catch`
branch (the only rejection) is unreachable in this model since nothing in
the `try` block throws. -/
def recalculateRoute (P : JsPrims) (s : NavState) (newId : ℤ) :
    NavState × List Effect × RecalcResult :=
  match s.currentPosition, s.destination with
  | some pos, some destLoc =>
      let newOrigin : Location := { name := "Current Location", coordinates := pos }
      let newRoute := simulateNewRoute P newId newOrigin destLoc
      let s1 := { s with activeRoute := some newRoute, origin := some newOrigin }
      let s2 :=
        match generateNavigationSteps P newRoute.path with
        | [] => s1
        | st :: tailSteps => { s1 with currentStep := some st, nextStep := tailSteps.head? }
      let s3 := { s2 with remainingDistance := newRoute.distance,
                          remainingTime := newRoute.duration, progress := 0 }
      let sv :=
        if s.voiceEnabled then
          ({ s3 with lastVoiceAlert := "recalculated" },
           [Effect.speak ("Route recalculated. " ++ newRoute.distance
             ++ " remaining. Estimated arrival in " ++ newRoute.duration ++ ".")])
        else (s3, ([] : List Effect))
      (sv.1, sv.2 ++
        [Effect.toastMsg ("Route Recalculated")
           ("New route found. " ++ newRoute.distance ++ " remaining."),
         Effect.notif ("info") ("Route Recalculated")
           ("New route found. " ++ newRoute.distance ++ " remaining."),
         Effect.domEvent ("routeRecalculated")],
       RecalcResult.resolved)
  | _, _ => (s, [], RecalcResult.resolved)

/-- External stimuli of the event loop. -/
inductive NavEvent
  | start (route : Route) (origin destination : Location)
  | stop
  | posUpdate (position : Point) (now : ℤ)
  | userRecalc (newId : ℤ)
  | fireTimer (idx : ℕ) (newId : ℤ)

/-- One event-loop turn.  A firing timer is removed from the queue and its
callback runs with the then-current state as its snapshot. -/
def stepEvent (P : JsPrims) (s : NavState) : NavEvent → NavState × List Effect
  | NavEvent.start route o d => startNavigation P s route o d
  | NavEvent.stop => stopNavigation s
  | NavEvent.posUpdate pos now => updateUserPosition P s pos now
  | NavEvent.userRecalc newId =>
      let r := recalculateRoute P s newId
      (r.1, r.2.1)
  | NavEvent.fireTimer idx newId =>
      match s.pendingTimers.get? idx with
      | none => (s, [])
      | some t =>
          let s1 := { s with pendingTimers := s.pendingTimers.eraseIdx idx }
          match t.action with
          | TimerAction.stopNav => stopNavigation s1
          | TimerAction.autoRecalc =>
              let r := recalculateRoute P s1 newId
              (r.1, r.2.1)

/-- Run a sequence of events from a state. -/
def runEvents (P : JsPrims) (s : NavState) (events : List NavEvent) : NavState :=
  events.foldl (fun st e => (stepEvent P st e).1) s

/-! ## Concrete fixtures used to evaluate the model on closed inputs -/

/-- A concrete instantiation of the uninterpreted primitives (any total
functions may stand in: the theorems below never depend on their values). -/
def demoPrims : JsPrims :=
  { dist := fun a b => |a.1 - b.1| + |a.2 - b.2|
    bearingRaw := fun _ _ => 0
    parseFloatMiles := fun _ => 1
    parseIntMins := fun _ => 10 }

/-- A two-point route. -/
def demoRoute : Route :=
  { id := 1, name := "Demo Route", duration := "10 mins", distance := "1.0 miles",
    trafficLevel := "moderate", incidents := 0, path := [(0, 0), (1, 1)] }

def demoOrigin : Location := { name := "O", coordinates := (0, 0) }

def demoDest : Location := { name := "D", coordinates := (1, 1) }

/-- The session right after `startNavigation` on the demo route. -/
def startState : NavState :=
  (startNavigation demoPrims initialNavState demoRoute demoOrigin demoDest).1

/-- The first generated step of the demo route. -/
def demoStep0 : NavigationStep :=
  { instruction := generateTurnInstruction none 0 2, distance := toFixed1 2 ++ " miles",
    coordinates := (0, 0), bearing := 0, maneuver := "straight" }

/-- The synthetic arrival step of the demo route. -/
def demoStep1 : NavigationStep :=
  { instruction := "Arrive at your destination", distance := "0 miles",
    coordinates := (1, 1), bearing := 0, maneuver := "arrive" }

/-- A position update far off the demo route (taxicab distance 8 from the
nearest path point, well beyond the 0.1-mile threshold). -/
def offResult1 : NavState × List Effect :=
  updateUserPosition demoPrims startState (5, 5) 1000

/-- Calling `stopNavigation` while the off-route 3000 ms auto-recalculation
timeout is still pending. -/
def stopResult : NavState × List Effect := stopNavigation offResult1.1

/-- A position update back on the route (at the first path point). -/
def backResult : NavState × List Effect :=
  updateUserPosition demoPrims offResult1.1 (0, 0) 2000

/-- A second divergence beyond 0.1 miles after returning within range. -/
def offResult2 : NavState × List Effect :=
  updateUserPosition demoPrims backResult.1 (5, 5) 3000

/-- A session that knows a destination but no current position. -/
def noPosState : NavState := { initialNavState with destination := some demoDest }

/-- A session with both a current position and a destination. -/
def posDestState : NavState :=
  { initialNavState with currentPosition := some (0, 0), destination := some demoDest }

/-- A session configured for high-frequency distance alerts. -/
def highSnap : NavState := { initialNavState with distanceAlertFrequency := Freq.high }

/-! ## Helper lemmas -/

lemma strNe1 : (("" : String) = "off-route") = False := by simp

lemma strNe2 : (("" : String) = "arrived") = False := by simp

lemma strNe3 : (("off-route" : String) = "arrived") = False := by simp

lemma strNe4 : (("arrive" : String) = "straight") = False := by simp

lemma strNe5 : (("right" : String) = "uturn") = False := by simp

lemma demoRoute_path : demoRoute.path = [(0, 0), (1, 1)] := rfl

lemma demoDest_coords : demoDest.coordinates = (1, 1) := rfl

lemma demoOrigin_coords : demoOrigin.coordinates = (0, 0) := rfl

lemma demoPrims_dist (a b : Point) : demoPrims.dist a b = |a.1 - b.1| + |a.2 - b.2| := rfl

lemma demoPrims_parseF (s : String) : demoPrims.parseFloatMiles s = 1 := rfl

lemma demoPrims_parseI (s : String) : demoPrims.parseIntMins s = 10 := rfl

lemma demoStep0_coords : demoStep0.coordinates = (0, 0) := rfl

lemma demoStep1_maneuver : demoStep1.maneuver = "arrive" := rfl

lemma startState_fields :
    startState.isNavigating = true ∧
    startState.activeRoute = some demoRoute ∧
    startState.origin = some demoOrigin ∧
    startState.destination = some demoDest ∧
    startState.currentPosition = none ∧
    startState.progress = 0 ∧
    startState.voiceEnabled = true ∧
    startState.distanceAlertFrequency = Freq.medium ∧
    startState.watchId = some 0 ∧
    startState.lastVoiceAlert = "" ∧
    startState.lastDistanceAlert = 0 ∧
    startState.pendingTimers = [] := by
  norm_num [startState, startNavigation, generateNavigationSteps,
    generateDetailedNavigationSteps, genStepsAux, classifyManeuver, calculateBearing,
    jsMod, qtrunc, initialNavState, demoRoute, demoOrigin, demoDest, demoPrims]

lemma startState_steps :
    startState.currentStep = some demoStep0 ∧ startState.nextStep = some demoStep1 := by
  norm_num [startState, startNavigation, generateNavigationSteps,
    generateDetailedNavigationSteps, genStepsAux, classifyManeuver, generateTurnInstruction,
    calculateBearing, jsMod, qtrunc, initialNavState, demoRoute, demoOrigin, demoDest,
    demoPrims, demoStep0, demoStep1, toFixed1, jsRound, getDirectionFromBearing, jsShow,
    directions]

lemma offResult1_fields :
    offResult1.1.isNavigating = true ∧
    offResult1.1.activeRoute = some demoRoute ∧
    offResult1.1.destination = some demoDest ∧
    offResult1.1.currentPosition = some (5, 5) ∧
    offResult1.1.currentStep = some demoStep0 ∧
    offResult1.1.nextStep = some demoStep1 ∧
    offResult1.1.voiceEnabled = true ∧
    offResult1.1.distanceAlertFrequency = Freq.medium ∧
    offResult1.1.watchId = some 0 ∧
    offResult1.1.lastVoiceAlert = "off-route" ∧
    offResult1.1.lastDistanceAlert = 0 ∧
    offResult1.1.pendingTimers = [⟨3000, TimerAction.autoRecalc⟩] ∧
    Effect.speak offRouteSpeakMsg ∈ offResult1.2 := by
  obtain ⟨h1, h2, h3, h4, h5, h8, h9, h10, h11, h12, h13, h14⟩ := startState_fields
  obtain ⟨hs1, hs2⟩ := startState_steps
  norm_num [offResult1, updateUserPosition, updateNavigationProgress, updateNavigationStep,
    checkDistanceAnnouncement, checkUpcomingTurn, checkIfOffRoute, isOffRoute, minDistToPath,
    closestPointIndex, closestIndexGo, generateNavigationSteps, generateDetailedNavigationSteps,
    genStepsAux, h1, h2, h3, h4, h9, h10, h11, h12, h13, h14, hs1, hs2,
    demoRoute_path, demoPrims_dist, demoPrims_parseF, demoPrims_parseI,
    demoDest_coords, demoOrigin_coords, demoStep0_coords, demoStep1_maneuver,
    strNe1, strNe2, strNe3, strNe4, Option.some_ne_none, Option.isSome_some]


lemma effNeToast (x a b : String) : (Effect.speak x = Effect.toastMsg a b) = False := by simp

lemma effNeNotif (x a b c : String) : (Effect.speak x = Effect.notif a b c) = False := by simp

lemma effNeDom (x a : String) : (Effect.speak x = Effect.domEvent a) = False := by simp

lemma stopResult_fields :
    stopResult.1.isNavigating = false ∧
    stopResult.1.activeRoute = none ∧
    stopResult.1.currentStep = none ∧
    stopResult.1.nextStep = none ∧
    stopResult.1.watchId = none ∧
    stopResult.1.currentPosition = some (5, 5) ∧
    stopResult.1.destination = some demoDest ∧
    stopResult.1.voiceEnabled = true ∧
    stopResult.1.pendingTimers = [⟨3000, TimerAction.autoRecalc⟩] := by
  obtain ⟨h1, h2, h3, h4, h5, h6, h7, h8, h9, h10, h11, h12, h13⟩ := offResult1_fields
  norm_num [stopResult, stopNavigation, h4, h3, h7, h9, h12]

lemma fireResult_fields :
    (stepEvent demoPrims stopResult.1 (NavEvent.fireTimer 0 7)).1.isNavigating = false ∧
    (stepEvent demoPrims stopResult.1 (NavEvent.fireTimer 0 7)).1.activeRoute ≠ none := by
  obtain ⟨g1, g2, g3, g4, g5, g6, g7, g8, g9⟩ := stopResult_fields
  norm_num [stepEvent, recalculateRoute, simulateNewRoute, generateNavigationSteps,
    generateDetailedNavigationSteps, genStepsAux, g1, g2, g5, g6, g7, g8, g9,
    demoDest_coords, demoPrims_dist, Option.some_ne_none]

lemma backResult_fields :
    backResult.1.isNavigating = true ∧
    backResult.1.activeRoute = some demoRoute ∧
    backResult.1.destination = some demoDest ∧
    backResult.1.currentPosition = some (0, 0) ∧
    backResult.1.currentStep = some demoStep0 ∧
    backResult.1.nextStep = some demoStep1 ∧
    backResult.1.voiceEnabled = true ∧
    backResult.1.distanceAlertFrequency = Freq.medium ∧
    backResult.1.watchId = some 0 ∧
    backResult.1.lastVoiceAlert = "off-route" ∧
    backResult.1.lastDistanceAlert = 0 ∧
    backResult.1.pendingTimers = [⟨3000, TimerAction.autoRecalc⟩] := by
  obtain ⟨h1, h2, h3, h4, h5, h6, h7, h8, h9, h10, h11, h12, h13⟩ := offResult1_fields
  norm_num [backResult, updateUserPosition, updateNavigationProgress, updateNavigationStep,
    checkDistanceAnnouncement, checkUpcomingTurn, checkIfOffRoute, isOffRoute, minDistToPath,
    closestPointIndex, closestIndexGo, generateNavigationSteps, generateDetailedNavigationSteps,
    genStepsAux, h1, h2, h3, h5, h6, h7, h8, h9, h10, h11, h12,
    demoRoute_path, demoPrims_dist, demoPrims_parseF, demoPrims_parseI,
    demoDest_coords, demoStep0_coords, demoStep1_maneuver,
    strNe3, Option.some_ne_none]

lemma offResult2_no_speak :
    Effect.speak offRouteSpeakMsg ∉ offResult2.2 := by
  obtain ⟨h1, h2, h3, h4, h5, h6, h7, h8, h9, h10, h11, h12⟩ := backResult_fields
  norm_num [offResult2, updateUserPosition, updateNavigationProgress, updateNavigationStep,
    checkDistanceAnnouncement, checkUpcomingTurn, checkIfOffRoute, isOffRoute, minDistToPath,
    closestPointIndex, closestIndexGo, generateNavigationSteps, generateDetailedNavigationSteps,
    genStepsAux, h1, h2, h3, h5, h6, h7, h8, h9, h10, h11, h12,
    demoRoute_path, demoPrims_dist, demoPrims_parseF, demoPrims_parseI,
    demoDest_coords, demoStep0_coords, demoStep1_maneuver,
    strNe3, Option.some_ne_none, offRouteSpeakMsg, effNeToast, effNeNotif, effNeDom]

/-! ## Claim theorems -/

/-- C1.  The maneuver-classification chain of `generateDetailedNavigationSteps`
evaluated at the example turn angles of the spec: +45° gives "right" and +15°
gives "slight-right" as claimed, but +175° gives "right", NOT "uturn" —
the `> 30` branch is tested first, so the sharp/uturn branches (lines
119-121) are unreachable and the claimed uturn precedence does not hold. -/
theorem c1_maneuver_thresholds :
    classifyManeuver (some 0) 45 = "right" ∧
    classifyManeuver (some 0) 15 = "slight-right" ∧
    classifyManeuver (some 0) 175 = "right" ∧
    classifyManeuver (some 0) 175 ≠ "uturn" := by
  norm_num [classifyManeuver, jsMod, qtrunc, strNe5]

/-- C2.  A stale `setTimeout` mutates the session after it has moved to
Idle: an off-route update schedules the 3000 ms auto-recalculation timer,
`stopNavigation` does not cancel it (the source discards the handle), and
when it fires it runs `recalculateRoute`, installing a new active route in
a session whose `isNavigating` is `false`. -/
theorem c2_stale_timer_mutates_idle_session :
    stopResult.1.isNavigating = false ∧
    stopResult.1.activeRoute = none ∧
    stopResult.1.pendingTimers = [⟨3000, TimerAction.autoRecalc⟩] ∧
    (stepEvent demoPrims stopResult.1 (NavEvent.fireTimer 0 7)).1.isNavigating = false ∧
    (stepEvent demoPrims stopResult.1 (NavEvent.fireTimer 0 7)).1.activeRoute ≠ none := by
  obtain ⟨g1, g2, g3, g4, g5, g6, g7, g8, g9⟩ := stopResult_fields
  obtain ⟨f1, f2⟩ := fireResult_fields
  exact ⟨g1, g2, g9, f1, f2⟩

/-- C3 counterexample.  After `start()` immediately followed by `stop()`,
the destination, origin, remaining distance/time and progress are NOT
cleared, and a subsequent `onPositionUpdate` does NOT leave the session
unchanged: it overwrites `currentPosition`. -/
theorem c3_stop_counterexample :
    (stopNavigation startState).1.destination = some demoDest ∧
    (stopNavigation startState).1.origin = some demoOrigin ∧
    (stopNavigation startState).1.currentPosition = none ∧
    (updateUserPosition demoPrims (stopNavigation startState).1 (3, 3) 2000).1.currentPosition
      = some (3, 3) := by
  obtain ⟨h1, h2, h3, h4, h5, h8, h9, h10, h11, h12, h13, h14⟩ := startState_fields
  norm_num [stopNavigation, updateUserPosition, h2, h3, h4, h5, h11]

/-- C3 amended.  `stop()` moves the session to Idle and clears exactly the
active route, current/next step and the position-tracking subscription; it
leaves origin, destination, current position, remaining distance/time and
progress untouched; it is idempotent on the state; and a subsequent
position update while idle changes only `currentPosition` (no exception,
no recomputation). -/
theorem c3_stop_amended (P : JsPrims) (s : NavState) (pos : Point) (now : ℤ) :
    (stopNavigation s).1.isNavigating = false ∧
    (stopNavigation s).1.activeRoute = none ∧
    (stopNavigation s).1.currentStep = none ∧
    (stopNavigation s).1.nextStep = none ∧
    (stopNavigation s).1.watchId = none ∧
    (stopNavigation s).1.origin = s.origin ∧
    (stopNavigation s).1.destination = s.destination ∧
    (stopNavigation s).1.currentPosition = s.currentPosition ∧
    (stopNavigation s).1.remainingDistance = s.remainingDistance ∧
    (stopNavigation s).1.remainingTime = s.remainingTime ∧
    (stopNavigation s).1.progress = s.progress ∧
    (stopNavigation (stopNavigation s).1).1 = (stopNavigation s).1 ∧
    (updateUserPosition P (stopNavigation s).1 pos now).1 =
      { (stopNavigation s).1 with currentPosition := some pos } := by
  rcases s with ⟨nav, route, orig, dest, curPos, curStep, nxtStep, rd, rt, pr, ve, freq,
    wid, lva, lda, timers⟩
  cases wid <;> simp [stopNavigation, updateUserPosition]

/-- C4 counterexample.  `recalculate()` with no known current position
leaves the session untouched but the returned promise RESOLVES (the guard
is a bare early `return` in an `async` function), contradicting the
claimed rejection. -/
theorem c4_recalc_counterexample :
    recalculateRoute demoPrims noPosState 7 = (noPosState, [], RecalcResult.resolved) ∧
    RecalcResult.resolved ≠ RecalcResult.rejected := by
  constructor
  · rfl
  · simp

/-- C4 amended.  When the current position or the destination is missing,
`recalculateRoute` mutates nothing and emits nothing, but the promise
resolves (with `undefined`) rather than rejecting. -/
theorem c4_recalc_guard_amended (P : JsPrims) (s : NavState) (newId : ℤ)
    (h : s.currentPosition = none ∨ s.destination = none) :
    recalculateRoute P s newId = (s, [], RecalcResult.resolved) := by
  unfold recalculateRoute
  rcases h with h | h <;> rw [h]
  cases s.currentPosition <;> rfl

/-- C4 amended witness. -/
theorem c4_recalc_guard_amended_witness :
    recalculateRoute demoPrims noPosState 7 = (noPosState, [], RecalcResult.resolved) :=
  c4_recalc_guard_amended demoPrims noPosState 7 (Or.inl rfl)

/-- C5 counterexample.  The off-route voice alert fires on the first
divergence, but after the position returns within range (0.1 miles) and
diverges again no alert is emitted: `lastVoiceAlert` is still "off-route"
because returning within range never resets the dedup key. -/
theorem c5_offroute_counterexample :
    Effect.speak offRouteSpeakMsg ∈ offResult1.2 ∧
    isOffRoute demoPrims (0, 0) demoRoute.path = false ∧
    isOffRoute demoPrims (5, 5) demoRoute.path = true ∧
    Effect.speak offRouteSpeakMsg ∉ offResult2.2 := by
  refine ⟨offResult1_fields.2.2.2.2.2.2.2.2.2.2.2.2, ?_, ?_, offResult2_no_speak⟩
  · norm_num [isOffRoute, minDistToPath, demoRoute_path, demoPrims_dist]
  · norm_num [isOffRoute, minDistToPath, demoRoute_path, demoPrims_dist]

/-- C5 amended.  On an off-route update the spoken alert is emitted exactly
once while the dedup key is unarmed and requires voice to be enabled; once
`lastVoiceAlert` is "off-route" no further off-route alert is spoken (in
particular, returning within range does not by itself re-arm the key); a
3000 ms auto-recalculation timeout is scheduled on every off-route update;
an in-range update does nothing; and a successful recalculation with voice
enabled overwrites the key (re-arming the alert). -/
theorem c5_offroute_dedup_amended (P : JsPrims) (snap cur : NavState) (position : Point)
    (route : Route) (hroute : snap.activeRoute = some route) :
    (isOffRoute P position route.path = false →
      checkIfOffRoute P snap cur position = (cur, [])) ∧
    (isOffRoute P position route.path = true →
      (checkIfOffRoute P snap cur position).1.pendingTimers =
        cur.pendingTimers ++ [⟨3000, TimerAction.autoRecalc⟩]) ∧
    (isOffRoute P position route.path = true → snap.voiceEnabled = true →
      cur.lastVoiceAlert ≠ "off-route" →
      Effect.speak offRouteSpeakMsg ∈ (checkIfOffRoute P snap cur position).2 ∧
      (checkIfOffRoute P snap cur position).1.lastVoiceAlert = "off-route") ∧
    (cur.lastVoiceAlert = "off-route" →
      Effect.speak offRouteSpeakMsg ∉ (checkIfOffRoute P snap cur position).2) ∧
    (∀ (s : NavState) (newId : ℤ) (pos2 : Point) (dl : Location),
      s.voiceEnabled = true → s.currentPosition = some pos2 → s.destination = some dl →
      (recalculateRoute P s newId).1.lastVoiceAlert = "recalculated") := by
  refine ⟨?_, ?_, ?_, ?_, ?_⟩
  · intro hoff
    simp only [checkIfOffRoute, hroute, hoff]
    rfl
  · intro hoff
    simp only [checkIfOffRoute, hroute, hoff]
    by_cases hv : snap.voiceEnabled = true ∧ cur.lastVoiceAlert ≠ "off-route" <;>
      simp [hv]
  · intro hoff hv hk
    simp only [checkIfOffRoute, hroute, hoff]
    simp [hv, hk]
  · intro hk
    simp only [checkIfOffRoute, hroute]
    by_cases hoff : isOffRoute P position route.path <;>
      simp [hoff, hk, effNeToast, effNeNotif]
  · intro s newId pos2 dl hv hp hd
    simp only [recalculateRoute, hp, hd]
    simp [hv]

/-- C5 amended witness. -/
theorem c5_offroute_dedup_amended_witness :
    (isOffRoute demoPrims (5, 5) demoRoute.path = false →
      checkIfOffRoute demoPrims startState startState (5, 5) = (startState, [])) ∧
    (isOffRoute demoPrims (5, 5) demoRoute.path = true →
      (checkIfOffRoute demoPrims startState startState (5, 5)).1.pendingTimers =
        startState.pendingTimers ++ [⟨3000, TimerAction.autoRecalc⟩]) ∧
    (isOffRoute demoPrims (5, 5) demoRoute.path = true → startState.voiceEnabled = true →
      startState.lastVoiceAlert ≠ "off-route" →
      Effect.speak offRouteSpeakMsg ∈ (checkIfOffRoute demoPrims startState startState (5, 5)).2 ∧
      (checkIfOffRoute demoPrims startState startState (5, 5)).1.lastVoiceAlert = "off-route") ∧
    (startState.lastVoiceAlert = "off-route" →
      Effect.speak offRouteSpeakMsg ∉ (checkIfOffRoute demoPrims startState startState (5, 5)).2) ∧
    (∀ (s : NavState) (newId : ℤ) (pos2 : Point) (dl : Location),
      s.voiceEnabled = true → s.currentPosition = some pos2 → s.destination = some dl →
      (recalculateRoute demoPrims s newId).1.lastVoiceAlert = "recalculated") :=
  c5_offroute_dedup_amended demoPrims startState startState (5, 5) demoRoute
    startState_fields.2.1


lemma genStepsAux_length (P : JsPrims) (prev : Option ℚ) (l : List Point) :
    (genStepsAux P prev l).length = l.length := by
  induction l generalizing prev with
  | nil => rfl
  | cons p rest ih =>
      cases rest with
      | nil => rfl
      | cons q rest2 => simp only [genStepsAux, List.length_cons, ih]

lemma genStepsAux_getLast (P : JsPrims) (prev : Option ℚ) (p : Point) (l : List Point) :
    ∃ b c, (p :: l).getLast? = some c ∧
      (genStepsAux P prev (p :: l)).getLast? =
        some { instruction := "Arrive at your destination", distance := "0 miles",
               coordinates := c, bearing := b, maneuver := "arrive" } := by
  induction l generalizing prev p with
  | nil => exact ⟨Option.getD prev 0, p, rfl, rfl⟩
  | cons q rest ih =>
      obtain ⟨b, c, hc, hb⟩ := ih (some (calculateBearing P p q)) q
      refine ⟨b, c, ?_, ?_⟩
      · rw [List.getLast?_cons_cons]
        exact hc
      · have hne : genStepsAux P (some (calculateBearing P p q)) (q :: rest) ≠ [] := by
          intro hEq
          have hlen := genStepsAux_length P (some (calculateBearing P p q)) (q :: rest)
          rw [hEq] at hlen
          simp at hlen
        cases hg : genStepsAux P (some (calculateBearing P p q)) (q :: rest) with
        | nil => exact absurd hg hne
        | cons s ts =>
            rw [show genStepsAux P prev (p :: q :: rest) =
              ({ instruction := generateTurnInstruction prev (calculateBearing P p q) (P.dist p q)
                 distance := toFixed1 (P.dist p q) ++ " miles"
                 coordinates := p
                 bearing := calculateBearing P p q
                 maneuver := classifyManeuver prev (calculateBearing P p q) } ::
                genStepsAux P (some (calculateBearing P p q)) (q :: rest)) from rfl]
            rw [hg, List.getLast?_cons_cons]
            rw [hg] at hb
            exact hb

lemma classifyManeuver_mem (prev : Option ℚ) (b : ℚ) :
    classifyManeuver prev b ∈
      (["straight", "slight-right", "slight-left", "right", "left"] : List String) := by
  unfold classifyManeuver
  cases prev with
  | none => simp
  | some p =>
      dsimp only
      split_ifs with h1 h2 h3 h4 h5 h6 h7 <;>
        first
          | decide
          | (exfalso; linarith)
          | (exfalso
             rcases lt_abs.mp h7 with h | h <;> linarith)

lemma genStepsAux_maneuver (P : JsPrims) (prev : Option ℚ) (l : List Point) :
    ∀ step ∈ genStepsAux P prev l,
      step.maneuver ∈
        (["straight", "slight-right", "slight-left", "right", "left", "arrive"] : List String) := by
  induction l generalizing prev with
  | nil => intro step h; simp [genStepsAux] at h
  | cons p rest ih =>
      cases rest with
      | nil =>
          intro step h
          simp only [genStepsAux, List.mem_singleton] at h
          subst h
          simp
      | cons q rest2 =>
          intro step h
          rw [show genStepsAux P prev (p :: q :: rest2) =
            ({ instruction := generateTurnInstruction prev (calculateBearing P p q) (P.dist p q)
               distance := toFixed1 (P.dist p q) ++ " miles"
               coordinates := p
               bearing := calculateBearing P p q
               maneuver := classifyManeuver prev (calculateBearing P p q) } ::
              genStepsAux P (some (calculateBearing P p q)) (q :: rest2)) from rfl] at h
          rcases List.mem_cons.mp h with h | h
          · subst h
            have hm := classifyManeuver_mem prev (calculateBearing P p q)
            revert hm
            generalize classifyManeuver prev (calculateBearing P p q) = m
            intro hm
            simp only [List.mem_cons, List.mem_singleton] at hm ⊢
            tauto
          · exact ih (some (calculateBearing P p q)) step h

/-- C10.  Every maneuver produced by `generateDetailedNavigationSteps` is
one of straight, slight-right, slight-left, right, left or arrive: the
`> 30` / `< -30` branches shadow the sharp-right, sharp-left and uturn
branches, which can never fire. -/
theorem c10_no_sharp_or_uturn (P : JsPrims) (path : List Point) (step : NavigationStep)
    (h : step ∈ generateDetailedNavigationSteps P path) :
    step.maneuver ∈
      (["straight", "slight-right", "slight-left", "right", "left", "arrive"] : List String) := by
  unfold generateDetailedNavigationSteps at h
  split at h
  · simp at h
  · exact genStepsAux_maneuver P none path step h

/-- C10 witness. -/
theorem c10_no_sharp_or_uturn_witness :
    demoStep1.maneuver ∈
      (["straight", "slight-right", "slight-left", "right", "left", "arrive"] : List String) :=
  c10_no_sharp_or_uturn demoPrims [(0, 0), (1, 1)] demoStep1 (by
    norm_num [generateDetailedNavigationSteps, genStepsAux, demoStep1, classifyManeuver,
      calculateBearing, jsMod, qtrunc, demoPrims, generateTurnInstruction, toFixed1, jsRound,
      getDirectionFromBearing, jsShow, directions])

/-- C6.  `generateDetailedNavigationSteps` returns the empty sequence on a
path of fewer than 2 points; on a path of length at least 2 it returns
exactly `path.length` steps, the last being the synthetic arrival step
("Arrive at your destination", "0 miles", maneuver arrive) anchored at the
last path coordinate. -/
theorem c6_generateSteps_length (P : JsPrims) (path : List Point) :
    (path.length < 2 → generateDetailedNavigationSteps P path = []) ∧
    (2 ≤ path.length →
      (generateDetailedNavigationSteps P path).length = path.length ∧
      ∃ last, (generateDetailedNavigationSteps P path).getLast? = some last ∧
        last.instruction = "Arrive at your destination" ∧
        last.distance = "0 miles" ∧
        last.maneuver = "arrive" ∧
        path.getLast? = some last.coordinates) := by
  constructor
  · intro h
    unfold generateDetailedNavigationSteps
    rw [if_pos h]
  · intro h
    have hnl : ¬ path.length < 2 := not_lt.mpr h
    unfold generateDetailedNavigationSteps
    rw [if_neg hnl]
    cases path with
    | nil => simp at h
    | cons p l =>
        refine ⟨genStepsAux_length P none (p :: l), ?_⟩
        obtain ⟨b, c, hc, hl⟩ := genStepsAux_getLast P none p l
        exact ⟨_, hl, rfl, rfl, rfl, by rw [hc]⟩

/-- C6 witness. -/
theorem c6_generateSteps_length_witness :
    (generateDetailedNavigationSteps demoPrims [(0, 0), (1, 1)]).length =
      ([(0, 0), (1, 1)] : List Point).length ∧
    ∃ last, (generateDetailedNavigationSteps demoPrims [(0, 0), (1, 1)]).getLast? = some last ∧
      last.instruction = "Arrive at your destination" ∧
      last.distance = "0 miles" ∧
      last.maneuver = "arrive" ∧
      ([(0, 0), (1, 1)] : List Point).getLast? = some last.coordinates :=
  (c6_generateSteps_length demoPrims [(0, 0), (1, 1)]).2 (by norm_num)


lemma jsRound_dist_le (y : ℚ) (k : ℤ) : |y - (jsRound y : ℚ)| ≤ |y - (k : ℚ)| := by
  unfold jsRound
  have h1 : (⌊y + 1 / 2⌋ : ℚ) ≤ y + 1 / 2 := Int.floor_le _
  have h2 : y + 1 / 2 < ⌊y + 1 / 2⌋ + 1 := Int.lt_floor_add_one _
  rcases eq_or_ne k ⌊y + 1 / 2⌋ with rfl | hk
  · exact le_refl _
  · have hym : |y - (⌊y + 1 / 2⌋ : ℚ)| ≤ 1 / 2 := by
      rw [abs_le]
      constructor <;> linarith
    rcases hk.lt_or_lt with h | h
    · have hk1 : (k : ℚ) + 1 ≤ (⌊y + 1 / 2⌋ : ℚ) := by exact_mod_cast Int.add_one_le_iff.mpr h
      have hge : 1 / 2 ≤ y - (k : ℚ) := by linarith
      calc |y - (⌊y + 1 / 2⌋ : ℚ)| ≤ 1 / 2 := hym
        _ ≤ y - (k : ℚ) := hge
        _ ≤ |y - (k : ℚ)| := le_abs_self _
    · have hk1 : (⌊y + 1 / 2⌋ : ℚ) + 1 ≤ (k : ℚ) := by exact_mod_cast Int.add_one_le_iff.mpr h
      have hge : 1 / 2 ≤ (k : ℚ) - y := by linarith
      have habs : 1 / 2 ≤ |y - (k : ℚ)| := by
        rw [abs_sub_comm]
        calc (1 : ℚ) / 2 ≤ (k : ℚ) - y := hge
          _ ≤ |(k : ℚ) - y| := le_abs_self _
      linarith [hym]

lemma near_half_iff (d : ℚ) :
    |((jsRound (d * 2) : ℚ)) / 2 - d| < 1 / 20 ↔ ∃ k : ℤ, |d - (k : ℚ) / 2| < 1 / 20 := by
  constructor
  · intro h
    refine ⟨jsRound (d * 2), ?_⟩
    calc |d - (jsRound (d * 2) : ℚ) / 2| = |((jsRound (d * 2) : ℚ)) / 2 - d| := abs_sub_comm _ _
      _ < 1 / 20 := h
  · rintro ⟨k, hk⟩
    have h2 : |d * 2 - (k : ℚ)| < 1 / 10 := by
      have he : d * 2 - (k : ℚ) = 2 * (d - (k : ℚ) / 2) := by ring
      rw [he, abs_mul]
      rw [show |(2 : ℚ)| = 2 from by norm_num]
      linarith
    have h4 : |d * 2 - (jsRound (d * 2) : ℚ)| < 1 / 10 :=
      lt_of_le_of_lt (jsRound_dist_le (d * 2) k) h2
    have h5 : |((jsRound (d * 2) : ℚ)) / 2 - d| = |d * 2 - (jsRound (d * 2) : ℚ)| / 2 := by
      rw [abs_sub_comm (d * 2)]
      rw [show ((jsRound (d * 2) : ℚ)) / 2 - d = ((jsRound (d * 2) : ℚ) - d * 2) / 2 from by ring,
        abs_div]
      norm_num
    rw [h5]
    linarith

lemma near_whole_iff (d : ℚ) :
    |((jsRound d : ℚ)) - d| < 1 / 20 ↔ ∃ k : ℤ, |d - (k : ℚ)| < 1 / 20 := by
  constructor
  · intro h
    exact ⟨jsRound d, by rw [abs_sub_comm]; exact h⟩
  · rintro ⟨k, hk⟩
    rw [abs_sub_comm]
    calc |d - (jsRound d : ℚ)| ≤ |d - (k : ℚ)| := jsRound_dist_le d k
      _ < 1 / 20 := hk

lemma whole_to_half (d : ℚ) :
    (∃ k : ℤ, |d - (k : ℚ)| < 1 / 20) → ∃ k : ℤ, |d - (k : ℚ) / 2| < 1 / 20 := by
  rintro ⟨k, hk⟩
  refine ⟨2 * k, ?_⟩
  rw [show ((2 * k : ℤ) : ℚ) / 2 = (k : ℚ) from by push_cast; ring]
  exact hk

lemma high_cond_iff (d : ℚ) :
    (|((jsRound (d * 2) : ℚ)) / 2 - d| < 1 / 20
      ∨ (d ≤ 5 ∧ |((jsRound d : ℚ)) - d| < 1 / 20)) ↔
    ((∃ k : ℤ, |d - (k : ℚ) / 2| < 1 / 20) ∨ (5 < d ∧ ∃ k : ℤ, |d - (k : ℚ)| < 1 / 20)) := by
  constructor
  · rintro (h | ⟨h5, h⟩)
    · exact Or.inl ((near_half_iff d).mp h)
    · exact Or.inl (whole_to_half d ((near_whole_iff d).mp h))
  · rintro (h | ⟨h5, h⟩)
    · exact Or.inl ((near_half_iff d).mpr h)
    · exact Or.inl ((near_half_iff d).mpr (whole_to_half d h))

lemma announceFor_high_fires_iff (d : ℚ) :
    (announceFor Freq.high d).isSome = true ↔
      (|((jsRound (d * 2) : ℚ)) / 2 - d| < 1 / 20
        ∨ (d ≤ 5 ∧ |((jsRound d : ℚ)) - d| < 1 / 20)) := by
  show (if |((jsRound (d * 2) : ℚ)) / 2 - d| < 1 / 20
          ∨ (d ≤ 5 ∧ |((jsRound d : ℚ)) - d| < 1 / 20) then
        some (distRemainMsg d) else none).isSome = true ↔ _
  split_ifs with hc
  · exact iff_of_true rfl hc
  · exact iff_of_false (by simp) hc

lemma checkDistance_fires_iff (snap cur : NavState) (d : ℚ) (now : ℤ)
    (hg : ¬ (¬ snap.voiceEnabled ∨ snap.distanceAlertFrequency = Freq.off))
    (ht : ¬ (now - cur.lastDistanceAlert < 30000)) :
    ((checkDistanceAnnouncement snap cur d now).2 ≠ []) ↔
      (announceFor snap.distanceAlertFrequency d).isSome = true := by
  unfold checkDistanceAnnouncement
  rw [if_neg hg, if_neg ht]
  cases hA : announceFor snap.distanceAlertFrequency d with
  | none => exact iff_of_false (fun h => h rfl) (by simp)
  | some m => exact iff_of_true (List.cons_ne_nil _ _) (by simp)

lemma checkDistance_min_interval (snap cur : NavState) (d : ℚ) (now : ℤ)
    (hne : (checkDistanceAnnouncement snap cur d now).2 ≠ []) :
    30000 ≤ now - cur.lastDistanceAlert ∧
    (checkDistanceAnnouncement snap cur d now).1.lastDistanceAlert = now := by
  unfold checkDistanceAnnouncement at hne ⊢
  by_cases hg : ¬ snap.voiceEnabled ∨ snap.distanceAlertFrequency = Freq.off
  · rw [if_pos hg] at hne
    exact absurd rfl hne
  · rw [if_neg hg] at hne ⊢
    by_cases htt : now - cur.lastDistanceAlert < 30000
    · rw [if_pos htt] at hne
      exact absurd rfl hne
    · rw [if_neg htt] at hne ⊢
      refine ⟨not_lt.mp htt, ?_⟩
      cases hA : announceFor snap.distanceAlertFrequency d with
      | none =>
          rw [hA] at hne
          exact absurd rfl hne
      | some m => rfl

/-- C7.  With frequency "high", voice enabled, and at least 30 seconds since
the last distance alert, the distance alert fires exactly when the
remaining distance is within 0.05 miles of a half-mile boundary, or of a
whole-mile boundary when more than 5 miles remain (the whole-mile clause is
subsumed either way since whole miles are half-mile boundaries); and
regardless of frequency, an alert fires only when at least 30 seconds have
passed since the previous one, after which the last-alert timestamp is set
to the present instant. -/
theorem c7_high_frequency_distance_alert (snap cur : NavState) (d : ℚ) (now : ℤ) :
    (snap.distanceAlertFrequency = Freq.high → snap.voiceEnabled = true →
      30000 ≤ now - cur.lastDistanceAlert →
      (((checkDistanceAnnouncement snap cur d now).2 ≠ []) ↔
        ((∃ k : ℤ, |d - (k : ℚ) / 2| < 1 / 20)
          ∨ (5 < d ∧ ∃ k : ℤ, |d - (k : ℚ)| < 1 / 20)))) ∧
    ((checkDistanceAnnouncement snap cur d now).2 ≠ [] →
      30000 ≤ now - cur.lastDistanceAlert ∧
      (checkDistanceAnnouncement snap cur d now).1.lastDistanceAlert = now) := by
  constructor
  · intro hf hv ht
    rw [checkDistance_fires_iff snap cur d now (by simp [hf, hv]) (not_lt.mpr ht), hf,
      announceFor_high_fires_iff, high_cond_iff]
  · exact checkDistance_min_interval snap cur d now

/-- C7 witness: at 3.5 miles remaining the alert fires (3.5 is a half-mile
boundary), every hypothesis discharged at concrete inputs. -/
theorem c7_high_frequency_distance_alert_witness :
    ((checkDistanceAnnouncement highSnap initialNavState (7 / 2) 30000).2 ≠ []) ↔
      ((∃ k : ℤ, |(7 : ℚ) / 2 - (k : ℚ) / 2| < 1 / 20)
        ∨ (5 < (7 : ℚ) / 2 ∧ ∃ k : ℤ, |(7 : ℚ) / 2 - (k : ℚ)| < 1 / 20)) :=
  (c7_high_frequency_distance_alert highSnap initialNavState (7 / 2) 30000).1 rfl rfl
    (by norm_num [initialNavState])


lemma qtrunc_of_nonneg (x : ℚ) (h : 0 ≤ x) : qtrunc x = ⌊x⌋ := by
  unfold qtrunc
  rw [if_pos h]

lemma jsMod_nonneg_bounds (a : ℚ) (h : 0 ≤ a) : 0 ≤ jsMod a 360 ∧ jsMod a 360 < 360 := by
  unfold jsMod
  have hd : (0 : ℚ) ≤ a / 360 := by positivity
  rw [qtrunc_of_nonneg _ hd]
  have h1 : (⌊a / 360⌋ : ℚ) ≤ a / 360 := Int.floor_le _
  have h2 : a / 360 < ⌊a / 360⌋ + 1 := Int.lt_floor_add_one _
  have key : a = 360 * (a / 360) := by ring
  constructor <;> nlinarith [h1, h2]

lemma compass_valid (b : ℚ) (h3 : 0 ≤ b) (h4 : b < 360) :
    ∃ dir, getDirectionFromBearing b = some dir ∧ dir ∈ directions := by
  unfold getDirectionFromBearing
  have hr0 : 0 ≤ jsRound (b / 45) := by
    unfold jsRound
    exact Int.floor_nonneg.mpr (by positivity)
  have hr8 : jsRound (b / 45) ≤ 8 := by
    show ⌊b / 45 + 1 / 2⌋ ≤ 8
    have hb8 : b / 45 < 8 := by
      rw [div_lt_iff₀ (by norm_num : (0 : ℚ) < 45)]
      linarith
    have hb9 : b / 45 + 1 / 2 < 9 := by linarith
    have h9 : ⌊b / 45 + 1 / 2⌋ < 9 := Int.floor_lt.mpr (by exact_mod_cast hb9)
    omega
  have hi0 : 0 ≤ Int.tmod (jsRound (b / 45)) 8 := Int.tmod_nonneg _ hr0
  have hi8 : Int.tmod (jsRound (b / 45)) 8 < 8 := Int.tmod_lt_of_pos _ (by norm_num)
  rw [if_neg (not_lt.mpr hi0)]
  have hlt : (Int.tmod (jsRound (b / 45)) 8).toNat < directions.length := by
    simp only [directions, List.length_cons, List.length_nil]
    omega
  exact ⟨directions.get ⟨(Int.tmod (jsRound (b / 45)) 8).toNat, hlt⟩,
    List.get?_eq_get hlt, List.get_mem _ _ hlt⟩

/-- C9.  For any raw atan2-degrees value within the documented range of
Math.atan2, `calculateBearing` lies in [0, 360); and any bearing in
[0, 360) indexes a valid compass label, so `getDirectionFromBearing` always
yields one of the eight labels. -/
theorem c9_bearing_range_and_compass (P : JsPrims) (p1 p2 : Point) (b : ℚ)
    (h1 : -180 ≤ P.bearingRaw p1 p2) (h2 : P.bearingRaw p1 p2 ≤ 180)
    (h3 : 0 ≤ b) (h4 : b < 360) :
    (0 ≤ calculateBearing P p1 p2 ∧ calculateBearing P p1 p2 < 360) ∧
    ∃ dir, getDirectionFromBearing b = some dir ∧ dir ∈ directions := by
  constructor
  · exact jsMod_nonneg_bounds (P.bearingRaw p1 p2 + 360) (by linarith)
  · exact compass_valid b h3 h4

/-- C9 witness, at raw bearing 0 and compass input 270 ("west"). -/
theorem c9_bearing_range_and_compass_witness :
    (0 ≤ calculateBearing demoPrims (0, 0) (1, 1) ∧
      calculateBearing demoPrims (0, 0) (1, 1) < 360) ∧
    ∃ dir, getDirectionFromBearing 270 = some dir ∧ dir ∈ directions :=
  c9_bearing_range_and_compass demoPrims (0, 0) (1, 1) 270 (by norm_num [demoPrims])
    (by norm_num [demoPrims]) (by norm_num) (by norm_num)


lemma updateNavigationStep_progress (P : JsPrims) (snap cur : NavState) (pos : Point) :
    (updateNavigationStep P snap cur pos).1.progress = cur.progress := by
  unfold updateNavigationStep
  cases hr : snap.activeRoute <;> cases hc : snap.currentStep <;> dsimp only <;>
    repeat first | rfl | split

lemma checkDistanceAnnouncement_progress (snap cur : NavState) (d : ℚ) (now : ℤ) :
    (checkDistanceAnnouncement snap cur d now).1.progress = cur.progress := by
  unfold checkDistanceAnnouncement
  dsimp only
  repeat first | rfl | split

lemma checkUpcomingTurn_progress (P : JsPrims) (snap cur : NavState) (pos : Point) :
    (checkUpcomingTurn P snap cur pos).1.progress = cur.progress := by
  unfold checkUpcomingTurn
  cases hc : snap.currentStep <;> cases hn : snap.nextStep <;> dsimp only <;>
    repeat first | rfl | split

lemma checkIfOffRoute_progress (P : JsPrims) (snap cur : NavState) (pos : Point) :
    (checkIfOffRoute P snap cur pos).1.progress = cur.progress := by
  unfold checkIfOffRoute
  cases hr : snap.activeRoute <;> dsimp only <;>
    repeat first | rfl | split

lemma updateNavigationProgress_progress (P : JsPrims) (snap cur : NavState)
    (pos : Point) (now : ℤ) :
    (updateNavigationProgress P snap cur pos now).1.progress = cur.progress ∨
    ∃ x : ℚ, (updateNavigationProgress P snap cur pos now).1.progress = min 100 (max 0 x) := by
  unfold updateNavigationProgress
  cases hr : snap.activeRoute with
  | none => cases hd : snap.destination <;> exact Or.inl rfl
  | some route =>
      cases hd : snap.destination with
      | none => exact Or.inl rfl
      | some destLoc =>
          dsimp only
          refine Or.inr ⟨100 - P.dist pos destLoc.coordinates /
            P.parseFloatMiles route.distance * 100, ?_⟩
          rw [checkIfOffRoute_progress]
          split_ifs <;>
            simp only [checkUpcomingTurn_progress, checkDistanceAnnouncement_progress,
              updateNavigationStep_progress]

lemma startNavigation_progress (P : JsPrims) (s : NavState) (r : Route)
    (o d : Location) : (startNavigation P s r o d).1.progress = 0 := by
  unfold startNavigation
  dsimp only
  repeat first | rfl | split

lemma stopNavigation_progress (s : NavState) :
    (stopNavigation s).1.progress = s.progress := by
  unfold stopNavigation
  dsimp only
  repeat first | rfl | split

lemma recalculateRoute_progress (P : JsPrims) (s : NavState) (newId : ℤ) :
    (recalculateRoute P s newId).1.progress = s.progress ∨
    (recalculateRoute P s newId).1.progress = 0 := by
  unfold recalculateRoute
  cases hp : s.currentPosition <;> cases hd : s.destination <;> dsimp only
  · exact Or.inl rfl
  · exact Or.inl rfl
  · exact Or.inl rfl
  · right
    dsimp only
    repeat first | rfl | split

lemma stepEvent_progress_bounds (P : JsPrims) (s : NavState) (e : NavEvent)
    (h0 : 0 ≤ s.progress) (h1 : s.progress ≤ 100) :
    0 ≤ (stepEvent P s e).1.progress ∧ (stepEvent P s e).1.progress ≤ 100 := by
  have hminmax : ∀ x : ℚ, 0 ≤ min 100 (max 0 x) ∧ min 100 (max 0 x) ≤ 100 := fun x =>
    ⟨le_min (by norm_num) (le_max_left 0 x), min_le_left _ _⟩
  cases e with
  | start r o d =>
      rw [show (stepEvent P s (NavEvent.start r o d)).1 = (startNavigation P s r o d).1 from rfl,
        startNavigation_progress]
      norm_num
  | stop =>
      rw [show (stepEvent P s NavEvent.stop).1 = (stopNavigation s).1 from rfl,
        stopNavigation_progress]
      exact ⟨h0, h1⟩
  | posUpdate pos now =>
      rw [show (stepEvent P s (NavEvent.posUpdate pos now)).1 =
        (updateUserPosition P s pos now).1 from rfl]
      unfold updateUserPosition
      split_ifs
      · rcases updateNavigationProgress_progress P s
          { s with currentPosition := some pos } pos now with h | ⟨x, h⟩
        · rw [h]
          exact ⟨h0, h1⟩
        · rw [h]
          exact hminmax x
      · exact ⟨h0, h1⟩
  | userRecalc newId =>
      rcases recalculateRoute_progress P s newId with h | h
      · rw [show (stepEvent P s (NavEvent.userRecalc newId)).1 =
          (recalculateRoute P s newId).1 from rfl, h]
        exact ⟨h0, h1⟩
      · rw [show (stepEvent P s (NavEvent.userRecalc newId)).1 =
          (recalculateRoute P s newId).1 from rfl, h]
        norm_num
  | fireTimer idx newId =>
      unfold stepEvent
      dsimp only
      cases ht : s.pendingTimers.get? idx with
      | none => exact ⟨h0, h1⟩
      | some t =>
          dsimp only
          cases t.action with
          | stopNav =>
              dsimp only
              rw [stopNavigation_progress]
              exact ⟨h0, h1⟩
          | autoRecalc =>
              dsimp only
              rcases recalculateRoute_progress P
                { s with pendingTimers := s.pendingTimers.eraseIdx idx } newId with h | h
              · rw [h]
                exact ⟨h0, h1⟩
              · rw [h]
                norm_num

lemma runEvents_progress_bounds (P : JsPrims) (events : List NavEvent) (s : NavState)
    (h0 : 0 ≤ s.progress) (h1 : s.progress ≤ 100) :
    0 ≤ (runEvents P s events).progress ∧ (runEvents P s events).progress ≤ 100 := by
  induction events generalizing s with
  | nil => exact ⟨h0, h1⟩
  | cons e rest ih =>
      have hb := stepEvent_progress_bounds P s e h0 h1
      have hstep : runEvents P s (e :: rest) = runEvents P (stepEvent P s e).1 rest := by
        simp [runEvents]
      rw [hstep]
      exact ih (stepEvent P s e).1 hb.1 hb.2

/-- C8.  The invariant `0 ≤ progress ≤ 100` holds in every session state
reachable from the initial state by any sequence of events (starts, stops,
position updates, recalculations, timer firings): `startNavigation` and a
successful `recalculateRoute` set progress to 0, `stopNavigation` leaves it
unchanged, and every position update clamps the recomputed progress into
[0, 100]. -/
theorem c8_progress_invariant (P : JsPrims) (events : List NavEvent) (s : NavState)
    (route : Route) (o d : Location) (newId : ℤ) :
    (0 ≤ (runEvents P initialNavState events).progress ∧
      (runEvents P initialNavState events).progress ≤ 100) ∧
    (startNavigation P s route o d).1.progress = 0 ∧
    (stopNavigation s).1.progress = s.progress ∧
    (∀ (pos : Point) (dl : Location), s.currentPosition = some pos →
      s.destination = some dl → (recalculateRoute P s newId).1.progress = 0) := by
  refine ⟨runEvents_progress_bounds P events initialNavState (le_refl 0)
    (by norm_num [initialNavState]),
    startNavigation_progress P s route o d, stopNavigation_progress s, ?_⟩
  intro pos dl hp hd
  unfold recalculateRoute
  rw [hp, hd]
  dsimp only
  repeat first | rfl | split

/-- C8 witness, every hypothesis discharged at concrete inputs. -/
theorem c8_progress_invariant_witness :
    (0 ≤ (runEvents demoPrims initialNavState []).progress ∧
      (runEvents demoPrims initialNavState []).progress ≤ 100) ∧
    (startNavigation demoPrims posDestState demoRoute demoOrigin demoDest).1.progress = 0 ∧
    (stopNavigation posDestState).1.progress = posDestState.progress ∧
    (∀ (pos : Point) (dl : Location), posDestState.currentPosition = some pos →
      posDestState.destination = some dl →
      (recalculateRoute demoPrims posDestState 7).1.progress = 0) :=
  c8_progress_invariant demoPrims [] posDestState demoRoute demoOrigin demoDest 7

end RouterOpt
